import Mathlib

/-!
Verification development for the chatlink roleplay settings and
prompt-composition engine.  The definitions below are a shallow embedding of
the TypeScript source: `src/lib/types/index.ts` (data model),
`src/lib/utils/promptUtils.ts` (prompt composer), the `RoleplayService`
class (settings persistence, template store, inline prompt generators) and
the settings-change reconciliation handler of the chat page.
-/

/-- Message role union type from `src/lib/types/index.ts`:
`role: 'user' | 'ai' | 'system'`. -/
inductive MsgRole where
  | user
  | ai
  | system
deriving DecidableEq

/-- `ChatMessage` interface from `src/lib/types/index.ts`. -/
structure ChatMessage where
  role : MsgRole
  content : String
deriving DecidableEq

/-- `RoleplaySettings` interface from `src/lib/types/index.ts`.
`avatarBase64?: string` is optional, hence `Option String`; `none` models an
absent / `undefined` field. -/
structure RoleplaySettings where
  characterName : String
  characterRole : String
  sceneDescription : String
  scenarioDescription : String
  systemPrompt : String
  isRoleplayMode : Bool
  avatarBase64 : Option String
deriving DecidableEq

/-- `RoleplayTemplate = Omit<RoleplaySettings, 'isRoleplayMode'>` from the
`RoleplayService` source: a persona configuration without the mode flag. -/
structure RoleplayTemplate where
  characterName : String
  characterRole : String
  sceneDescription : String
  scenarioDescription : String
  systemPrompt : String
  avatarBase64 : Option String
deriving DecidableEq

/-- Embedding of JavaScript `String.prototype.trim()`: remove leading and
trailing whitespace characters. -/
def jsTrim (s : String) : String :=
  ⟨((s.data.dropWhile Char.isWhitespace).reverse.dropWhile Char.isWhitespace).reverse⟩

/-- `generateRoleplaySystemPrompt` from `src/lib/utils/promptUtils.ts`:
returns the empty string when roleplay mode is off, otherwise pushes the
fixed preamble, one clause per non-empty field in source order, and the
fixed closing instruction, joined with `'\n\n'`. -/
def generateRoleplaySystemPrompt (s : RoleplaySettings) : String :=
  if s.isRoleplayMode = false then ""
  else
    String.intercalate "\n\n"
      (["你是一個角色扮演的AI助手。"]
        ++ (if s.characterName ≠ "" then ["你的名字是「" ++ s.characterName ++ "」。"] else [])
        ++ (if s.characterRole ≠ "" then ["你的角色是「" ++ s.characterRole ++ "」。"] else [])
        ++ (if s.sceneDescription ≠ "" then ["當前場景：" ++ s.sceneDescription] else [])
        ++ (if s.scenarioDescription ≠ "" then ["當前情境：" ++ s.scenarioDescription] else [])
        ++ (if s.systemPrompt ≠ "" then ["額外指令：" ++ s.systemPrompt] else [])
        ++ ["請始終保持這個角色，不要打破第四面牆。不要提及你是AI或語言模型，完全沉浸在角色中回應用戶。"])

/-- `generateWelcomeMessage` from `src/lib/utils/promptUtils.ts` (the
file-level composer function): builds a greeting that always names the
character or a fallback label. -/
def generateWelcomeMessageUtils (s : RoleplaySettings) : Option ChatMessage :=
  if s.isRoleplayMode = false then none
  else
    let c := "歡迎來到"
    let c := if s.sceneDescription ≠ "" then c ++ s.sceneDescription ++ "。" else c
    let c := if s.scenarioDescription ≠ "" then c ++ "\n" ++ s.scenarioDescription else c
    let c := c ++ "\n我是" ++ (if s.characterName ≠ "" then s.characterName else "AI助手")
    let c := if s.characterRole ≠ "" then c ++ "，" ++ s.characterRole else c
    let c := c ++ "。有什麼我可以幫助你的嗎？"
    some { role := MsgRole.ai, content := c }

/-- `RoleplayService.generateSystemPrompt` (the inline class method of
`src/lib/services/RoleplayService.ts`): string concatenation with single
newlines before the name, role, scene and scenario clauses and a blank line
before the extra-instructions clause and the closing instruction. -/
def serviceGenerateSystemPrompt (s : RoleplaySettings) : String :=
  if s.isRoleplayMode = false then ""
  else
    let p := "你是一個角色扮演的AI助手。"
    let p := if s.characterName ≠ "" then p ++ "\n你的名字是「" ++ s.characterName ++ "」。" else p
    let p := if s.characterRole ≠ "" then p ++ "\n你的角色是「" ++ s.characterRole ++ "」。" else p
    let p := if s.sceneDescription ≠ "" then p ++ "\n當前場景：" ++ s.sceneDescription else p
    let p := if s.scenarioDescription ≠ "" then p ++ "\n當前情境：" ++ s.scenarioDescription else p
    let p := if s.systemPrompt ≠ "" then p ++ "\n\n額外指令：" ++ s.systemPrompt else p
    p ++ "\n\n請始終保持這個角色，不要打破第四面牆。不要提及你是AI或語言模型，完全沉浸在角色中回應用戶。"

/-- `RoleplayService.generateWelcomeMessage` (the inline class method of
`src/lib/services/RoleplayService.ts`): `null` outside roleplay mode and
when both name and role are empty, otherwise an `ai` message
`*name（role）已進入對話。*` with fallback label `AI` and the role segment
present only when the role is non-empty. -/
def serviceGenerateWelcomeMessage (s : RoleplaySettings) : Option ChatMessage :=
  if s.isRoleplayMode = false then none
  else if s.characterName ≠ "" ∨ s.characterRole ≠ "" then
    some { role := MsgRole.ai
         , content :=
             "*" ++ (if s.characterName ≠ "" then s.characterName else "AI")
                 ++ (if s.characterRole ≠ "" then "（" ++ s.characterRole ++ "）" else "")
                 ++ "已進入對話。*" }
  else none

/-- Statement of the spec sentence for the system prompt, written from the
spec words: the fixed preamble, then the five optional clauses each kept if
and only if its source field is non-empty, in the fixed order, then the
fixed closing instruction, joined with a blank-line separator. -/
def specSystemPrompt (s : RoleplaySettings) : String :=
  String.intercalate "\n\n"
    (["你是一個角色扮演的AI助手。"]
      ++ (([ (s.characterName, "你的名字是「" ++ s.characterName ++ "」。"),
             (s.characterRole, "你的角色是「" ++ s.characterRole ++ "」。"),
             (s.sceneDescription, "當前場景：" ++ s.sceneDescription),
             (s.scenarioDescription, "當前情境：" ++ s.scenarioDescription),
             (s.systemPrompt, "額外指令：" ++ s.systemPrompt)
           ].filter (fun p => p.1 ≠ "")).map (fun p => p.2))
      ++ ["請始終保持這個角色，不要打破第四面牆。不要提及你是AI或語言模型，完全沉浸在角色中回應用戶。"])

/-- Partial persona record as it appears after JSON parsing of durable
storage: any field may be absent.  `JSON.stringify` drops fields whose value
is `undefined`, so an in-memory `avatarBase64 = undefined` is stored as an
absent key. -/
structure StoredSettings where
  characterName : Option String
  characterRole : Option String
  sceneDescription : Option String
  scenarioDescription : Option String
  systemPrompt : Option String
  isRoleplayMode : Option Bool
  avatarBase64 : Option String
deriving DecidableEq

/-- Durable storage cell for the persona settings key: absent, present but
unparseable, or a parsed partial record. -/
inductive SettingsStorage where
  | absent
  | corrupt
  | stored (p : StoredSettings)
deriving DecidableEq

/-- Hard-coded default settings from the `RoleplayService` constructor and
from `loadSettings`: the character name defaults to the assistant label,
every other string field to the empty string, the mode flag to `false`, the
avatar to `undefined`. -/
def defaultSettings : RoleplaySettings :=
  { characterName := "AI助手"
  , characterRole := ""
  , sceneDescription := ""
  , scenarioDescription := ""
  , systemPrompt := ""
  , isRoleplayMode := false
  , avatarBase64 := none }

/-- JSON serialization of a full settings record as written by
`saveSettings` via `saveToStorage`: every string field and the mode flag
are present; an `undefined` avatar is dropped by `JSON.stringify`. -/
def toStored (s : RoleplaySettings) : StoredSettings :=
  { characterName := some s.characterName
  , characterRole := some s.characterRole
  , sceneDescription := some s.sceneDescription
  , scenarioDescription := some s.scenarioDescription
  , systemPrompt := some s.systemPrompt
  , isRoleplayMode := some s.isRoleplayMode
  , avatarBase64 := s.avatarBase64 }

/-- The spread merge of `loadSettings`:
`{...defaultSettings, ...savedSettings, avatarBase64: savedSettings.avatarBase64 || undefined}`.
A present field overrides the default even when it is the empty string or
`false`; an absent field keeps the default; a falsy avatar (absent or the
empty string) becomes `undefined`. -/
def mergeLoad (p : StoredSettings) : RoleplaySettings :=
  { characterName := p.characterName.getD defaultSettings.characterName
  , characterRole := p.characterRole.getD defaultSettings.characterRole
  , sceneDescription := p.sceneDescription.getD defaultSettings.sceneDescription
  , scenarioDescription := p.scenarioDescription.getD defaultSettings.scenarioDescription
  , systemPrompt := p.systemPrompt.getD defaultSettings.systemPrompt
  , isRoleplayMode := p.isRoleplayMode.getD defaultSettings.isRoleplayMode
  , avatarBase64 :=
      match p.avatarBase64 with
      | some a => if a = "" then none else some a
      | none => none }

/-- `RoleplayService.loadSettings`: `loadFromStorage` yields the parsed
record when the key holds parseable JSON and the default settings
otherwise; the result is then merged onto the defaults field by field. -/
def loadSettings (st : SettingsStorage) : RoleplaySettings :=
  match st with
  | SettingsStorage.stored p => mergeLoad p
  | _ => mergeLoad (toStored defaultSettings)

/-- `RoleplayService.saveSettings`: writes the JSON serialization of the
given settings under the persona settings key (write-through). -/
def saveSettings (s : RoleplaySettings) : SettingsStorage :=
  SettingsStorage.stored (toStored s)

/-- Boolean avatar invariant: the avatar field is absent or a non-empty
payload. -/
def avatarOkB (s : RoleplaySettings) : Bool :=
  match s.avatarBase64 with
  | none => true
  | some a => a != ""

/-- Claim C2: with `isRoleplayMode = false` the system prompt is empty and
the welcome message is `null`, in both the composer of `promptUtils.ts` and
the inline `RoleplayService` generators, for all values of the other
fields. -/
theorem roleplay_off_prompt_empty_welcome_none
    (s : RoleplaySettings) (h : s.isRoleplayMode = false) :
    generateRoleplaySystemPrompt s = ""
      ∧ generateWelcomeMessageUtils s = none
      ∧ serviceGenerateSystemPrompt s = ""
      ∧ serviceGenerateWelcomeMessage s = none := by
  refine ⟨?_, ?_, ?_, ?_⟩ <;>
    simp [generateRoleplaySystemPrompt, generateWelcomeMessageUtils,
      serviceGenerateSystemPrompt, serviceGenerateWelcomeMessage, h]

/-- Witness for claim C2 at a concrete fully-populated settings value with
the mode flag off. -/
theorem roleplay_off_prompt_empty_welcome_none_witness :
    generateRoleplaySystemPrompt
        ⟨"艾爾文", "魔法師導遊", "森林", "尋寶", "指令", false, some "img"⟩ = ""
      ∧ generateWelcomeMessageUtils
        ⟨"艾爾文", "魔法師導遊", "森林", "尋寶", "指令", false, some "img"⟩ = none :=
  ⟨(roleplay_off_prompt_empty_welcome_none
      ⟨"艾爾文", "魔法師導遊", "森林", "尋寶", "指令", false, some "img"⟩ rfl).1,
   (roleplay_off_prompt_empty_welcome_none
      ⟨"艾爾文", "魔法師導遊", "森林", "尋寶", "指令", false, some "img"⟩ rfl).2.1⟩

/-- Claim C3: with `isRoleplayMode = true` the composer of `promptUtils.ts`
produces exactly the spec-side composition: fixed preamble, the optional
clauses each included if and only if its field is non-empty in the fixed
order, fixed closing instruction, joined by blank lines. -/
theorem system_prompt_matches_spec_composition
    (s : RoleplaySettings) (h : s.isRoleplayMode = true) :
    generateRoleplaySystemPrompt s = specSystemPrompt s := by
  by_cases h1 : s.characterName = "" <;>
    by_cases h2 : s.characterRole = "" <;>
      by_cases h3 : s.sceneDescription = "" <;>
        by_cases h4 : s.scenarioDescription = "" <;>
          by_cases h5 : s.systemPrompt = "" <;>
            simp [generateRoleplaySystemPrompt, specSystemPrompt, h, h1, h2, h3, h4, h5]

/-- Witness for claim C3: at the all-empty settings the result is exactly
the fixed preamble followed by the fixed closing instruction with a single
blank-line separator and no optional clauses. -/
theorem system_prompt_matches_spec_composition_witness :
    generateRoleplaySystemPrompt ⟨"", "", "", "", "", true, none⟩
      = "你是一個角色扮演的AI助手。\n\n請始終保持這個角色，不要打破第四面牆。不要提及你是AI或語言模型，完全沉浸在角色中回應用戶。" := by
  rw [system_prompt_matches_spec_composition ⟨"", "", "", "", "", true, none⟩ rfl]
  rfl

/-- Claim C4: saving settings and loading them back yields a field-equal
value for every settings record whose avatar satisfies the invariant (in
particular for every fully-populated record and for records with saved
empty-string fields); a present-but-empty-string field is honored as empty
while a genuinely absent field falls back to the default, and absent or
corrupt storage loads the defaults. -/
theorem save_load_round_trip
    (s : RoleplaySettings) (p : StoredSettings) (h : avatarOkB s = true) :
    loadSettings (saveSettings s) = s
      ∧ (mergeLoad { p with characterName := some "" }).characterName = ""
      ∧ (mergeLoad { p with characterName := none }).characterName = "AI助手"
      ∧ loadSettings SettingsStorage.absent = defaultSettings
      ∧ loadSettings SettingsStorage.corrupt = defaultSettings := by
  refine ⟨?_, rfl, rfl, rfl, rfl⟩
  cases s with
  | mk n r sc sn sp m av =>
    cases av with
    | none => rfl
    | some a =>
      simp only [avatarOkB, bne_iff_ne, ne_eq] at h
      simp [loadSettings, saveSettings, toStored, mergeLoad, h]

/-- Witness for claim C4 at a concrete settings record with an empty
character name, showing the empty string round-trips instead of being
replaced by the default. -/
theorem save_load_round_trip_witness :
    loadSettings (saveSettings ⟨"", "嚮導", "森林", "尋寶", "指令", true, some "img"⟩)
      = ⟨"", "嚮導", "森林", "尋寶", "指令", true, some "img"⟩ :=
  (save_load_round_trip ⟨"", "嚮導", "森林", "尋寶", "指令", true, some "img"⟩
    ⟨none, none, none, none, none, none, none⟩ rfl).1

/-- Counterexample to claim C9 as stated: the claim says every string field
of the persona settings defaults to the empty string, but the constructed
default has `characterName = "AI助手"`. -/
theorem default_name_not_empty_counterexample :
    defaultSettings.characterName = "AI助手" ∧ defaultSettings.characterName ≠ "" := by
  refine ⟨rfl, ?_⟩
  decide

/-- Claim C9 amended: every string field except `characterName` defaults to
the empty string, `characterName` defaults to the fixed assistant label,
the default avatar is absent, and after any `loadSettings` the avatar is
either absent or a non-empty payload. -/
theorem default_fields_and_avatar_invariant (st : SettingsStorage) :
    defaultSettings.characterRole = ""
      ∧ defaultSettings.sceneDescription = ""
      ∧ defaultSettings.scenarioDescription = ""
      ∧ defaultSettings.systemPrompt = ""
      ∧ defaultSettings.characterName = "AI助手"
      ∧ defaultSettings.avatarBase64 = none
      ∧ avatarOkB (loadSettings st) = true := by
  refine ⟨rfl, rfl, rfl, rfl, rfl, rfl, ?_⟩
  cases st with
  | absent => rfl
  | corrupt => rfl
  | stored p =>
    cases hp : p.avatarBase64 with
    | none => simp [loadSettings, mergeLoad, avatarOkB, hp]
    | some a =>
      by_cases ha : a = "" <;>
        simp [loadSettings, mergeLoad, avatarOkB, hp, ha]

/-- Association list lookup modelling JavaScript property access
`templates[name]` on the template record object. -/
def lookupT : List (String × RoleplayTemplate) → String → Option RoleplayTemplate
  | [], _ => none
  | (k, v) :: r, n => if k = n then some v else lookupT r n

/-- JavaScript property assignment `templates[key] = value`: an existing key
is overwritten in place, a new key is appended after the existing ones. -/
def insertT : List (String × RoleplayTemplate) → String → RoleplayTemplate →
    List (String × RoleplayTemplate)
  | [], k, v => [(k, v)]
  | (k', v') :: r, k, v =>
    if k' = k then (k, v) :: r else (k', v') :: insertT r k v

/-- JavaScript `delete templates[name]`: removes the entry with the given
key. -/
def removeT (m : List (String × RoleplayTemplate)) (n : String) :
    List (String × RoleplayTemplate) :=
  m.filter (fun p => p.1 ≠ n)

/-- Code-unit comparison of character lists: the order JavaScript
`Array.prototype.sort` uses on strings (for characters of the basic plane
it coincides with code-point order). -/
def charListLt : List Char → List Char → Bool
  | [], [] => false
  | [], _ :: _ => true
  | _ :: _, [] => false
  | a :: as, b :: bs =>
    if a.toNat < b.toNat then true
    else if b.toNat < a.toNat then false
    else charListLt as bs

/-- String comparison by code units. -/
def strLtB (a b : String) : Bool := charListLt a.data b.data

/-- Insertion of one string into a sorted list, ordered by the code-unit
string order. -/
def insortStr (x : String) : List String → List String
  | [] => [x]
  | y :: r => if strLtB x y then x :: y :: r else y :: insortStr x r

/-- `Object.keys(templates).sort()`: the key list in insertion order, then
sorted lexicographically ascending. -/
def sortStrings (l : List String) : List String :=
  l.foldr insortStr []

/-- `DEFAULT_TEMPLATES` from the `RoleplayService` source: the four
built-in templates, each with the avatar field explicitly `undefined`. -/
def DEFAULT_TEMPLATES : List (String × RoleplayTemplate) :=
  [ ("奇幻冒險",
     { characterName := "艾爾文"
     , characterRole := "魔法師導遊"
     , sceneDescription := "埃爾德林中世紀奇幻王國，充滿魔法與神秘生物的翡翠森林"
     , scenarioDescription := "帶領冒險者穿越危險的翡翠森林，尋找失落的龍族寶藏"
     , systemPrompt := "使用華麗的語言描述環境和魔法，創造冒險氛圍。當用戶面臨選擇時，提供多種冒險分支。"
     , avatarBase64 := none }),
    ("科幻宇宙",
     { characterName := "Nova-7"
     , characterRole := "星際飛船AI"
     , sceneDescription := "銀河聯邦太空站阿爾法-9，位於仙女座星系邊緣"
     , scenarioDescription := "太空站遇到引力波干擾，需要幫助乘客解決各種宇宙難題"
     , systemPrompt := "使用科幻術語和技術語言，呈現未來科技感。結合故障排除和太空冒險元素。"
     , avatarBase64 := none }),
    ("偵探推理",
     { characterName := "夏洛克"
     , characterRole := "名偵探"
     , sceneDescription := "霧氣彌漫的維多利亞時代英國倫敦，貝克街221B"
     , scenarioDescription := "調查一起發生在泰晤士河畔的神秘珠寶失竊案，需要分析線索、詢問目擊者"
     , systemPrompt := "使用推理和邏輯分析，協助用戶解開謎題。偶爾提供一些模糊的線索，鼓勵用戶思考。"
     , avatarBase64 := none }),
    ("歷史探索",
     { characterName := "教授"
     , characterRole := "歷史學者"
     , sceneDescription := "亞歷山大港古代圖書館，公元前三世紀的埃及"
     , scenarioDescription := "探索古埃及、古希臘與古羅馬的歷史事件，解答歷史謎團"
     , systemPrompt := "提供準確的歷史知識，並用生動的方式描述歷史場景。可以角色化地講述歷史故事。"
     , avatarBase64 := none }) ]

/-- Durable storage cell for the template collection key. -/
inductive TemplateStorage where
  | absent
  | corrupt
  | stored (m : List (String × RoleplayTemplate))
deriving DecidableEq

/-- `RoleplayService.loadTemplates`: parseable stored JSON becomes the
in-memory collection without touching storage; an absent key or a parse
failure triggers `initializeDefaultTemplates`, which installs the built-in
seed and persists it immediately. -/
def loadTemplates (ts : TemplateStorage) :
    List (String × RoleplayTemplate) × TemplateStorage :=
  match ts with
  | TemplateStorage.stored m => (m, TemplateStorage.stored m)
  | TemplateStorage.absent =>
      (DEFAULT_TEMPLATES, TemplateStorage.stored DEFAULT_TEMPLATES)
  | TemplateStorage.corrupt =>
      (DEFAULT_TEMPLATES, TemplateStorage.stored DEFAULT_TEMPLATES)

/-- In-memory state of the `RoleplayService` relevant to the template
operations: current settings, the template collection, and the durable
storage cell backing the collection. -/
structure ServiceState where
  settings : RoleplaySettings
  templates : List (String × RoleplayTemplate)
  templateStorage : TemplateStorage
deriving DecidableEq

/-- `RoleplayService.getTemplateNames`: all template names sorted
lexicographically ascending. -/
def getTemplateNames (st : ServiceState) : List String :=
  sortStrings (st.templates.map (fun p => p.1))

/-- `RoleplayService.getTemplate`: a copy of the stored template, or
`undefined` when the name is not a key. -/
def getTemplate (st : ServiceState) (name : String) : Option RoleplayTemplate :=
  lookupT st.templates name

/-- `RoleplayService.saveTemplate`: fails when the name trims to the empty
string; otherwise inserts-or-overwrites under the trimmed name and persists
the whole collection. -/
def saveTemplate (st : ServiceState) (name : String) (t : RoleplayTemplate) :
    Bool × ServiceState :=
  if jsTrim name = "" then (false, st)
  else
    let m := insertT st.templates (jsTrim name) t
    (true, { st with templates := m, templateStorage := TemplateStorage.stored m })

/-- `RoleplayService.deleteTemplate`: fails when the name is not a key;
otherwise removes it and persists the whole collection. -/
def deleteTemplate (st : ServiceState) (name : String) : Bool × ServiceState :=
  match lookupT st.templates name with
  | some _ =>
      let m := removeT st.templates name
      (true, { st with templates := m, templateStorage := TemplateStorage.stored m })
  | none => (false, st)

/-- `RoleplayService.applyTemplate`: looks the template up; when found,
spreads it over the current settings (`{...this.settings, ...template}`),
overwriting every field including the avatar while keeping
`isRoleplayMode`, and returns the merged copy; when not found, returns
`null` and leaves the state untouched. -/
def applyTemplate (st : ServiceState) (name : String) :
    Option RoleplaySettings × ServiceState :=
  match lookupT st.templates name with
  | some t =>
      let s2 : RoleplaySettings :=
        { characterName := t.characterName
        , characterRole := t.characterRole
        , sceneDescription := t.sceneDescription
        , scenarioDescription := t.scenarioDescription
        , systemPrompt := t.systemPrompt
        , isRoleplayMode := st.settings.isRoleplayMode
        , avatarBase64 := t.avatarBase64 }
      (some s2, { st with settings := s2 })
  | none => (none, st)

/-- Identity-field comparison of the settings-change handler in the chat
page: field-by-field inequality over the five persona-identity fields,
against the previous in-memory settings; the avatar is not compared. -/
def roleDetailsChanged (a b : RoleplaySettings) : Bool :=
  a.characterName != b.characterName
    || a.characterRole != b.characterRole
    || a.sceneDescription != b.sceneDescription
    || a.scenarioDescription != b.scenarioDescription
    || a.systemPrompt != b.systemPrompt

/-- `startRoleplay` from the chat page: forces the mode flag on, clears the
transcript, and installs the fresh initial messages, a system message when
the generated prompt is non-empty followed by the welcome message when one
is generated.  Returns the settings and the new transcript. -/
def startRoleplay (s : RoleplaySettings) : RoleplaySettings × List ChatMessage :=
  let s2 := { s with isRoleplayMode := true }
  let prompt := serviceGenerateSystemPrompt s2
  let sysMsgs := if prompt ≠ "" then [ChatMessage.mk MsgRole.system prompt] else []
  let welMsgs :=
    match serviceGenerateWelcomeMessage s2 with
    | some m => [m]
    | none => []
  (s2, sysMsgs ++ welMsgs)

/-- Outcome of one settings-change event: the settings and transcript after
the handler runs, and whether a confirmation dialog was shown. -/
structure HostOutcome where
  settings : RoleplaySettings
  messages : List ChatMessage
  confirmationRequested : Bool
deriving DecidableEq

/-- The `onSettingsChange` handler of the chat page.  Case 1: mode flips on,
reset without confirmation.  Case 2: mode stays on and an identity field
changed; when the transcript holds more than one message a confirmation is
requested (`answer` is the reply the dialog would return), accepting resets
and declining leaves everything untouched; with at most one message the
reset proceeds silently.  All remaining cases persist the new settings and
leave the transcript alone. -/
def onSettingsChange (a b : RoleplaySettings) (msgs : List ChatMessage)
    (answer : Bool) : HostOutcome :=
  if a.isRoleplayMode = false ∧ b.isRoleplayMode = true then
    { settings := (startRoleplay b).1
    , messages := (startRoleplay b).2
    , confirmationRequested := false }
  else if a.isRoleplayMode = true ∧ b.isRoleplayMode = true
      ∧ roleDetailsChanged a b = true then
    if msgs.length > 1 then
      if answer then
        { settings := (startRoleplay b).1
        , messages := (startRoleplay b).2
        , confirmationRequested := true }
      else
        { settings := a, messages := msgs, confirmationRequested := true }
    else
      { settings := (startRoleplay b).1
      , messages := (startRoleplay b).2
      , confirmationRequested := false }
  else
    { settings := b, messages := msgs, confirmationRequested := false }

/-- Whether a transcript contains at least one user turn. -/
def hasUserMessage (l : List ChatMessage) : Bool :=
  l.any (fun m => m.role == MsgRole.user)

/-- Boolean check that every stored template key is already trimmed, an
invariant of the template collection since `saveTemplate` always stores
under the trimmed name and the seeds carry no surrounding whitespace. -/
def keysTrimmedB (m : List (String × RoleplayTemplate)) : Bool :=
  m.all (fun p => jsTrim p.1 == p.1)

/-- Lookup after in-place insert at the inserted key. -/
theorem lookupT_insertT_self (m : List (String × RoleplayTemplate))
    (k : String) (v : RoleplayTemplate) :
    lookupT (insertT m k v) k = some v := by
  induction m with
  | nil => simp [insertT, lookupT]
  | cons hd tl ih =>
    by_cases hk : hd.1 = k
    · simp [insertT, lookupT, hk]
    · simpa [insertT, lookupT, hk] using ih

/-- Lookup after in-place insert at a different key. -/
theorem lookupT_insertT_ne (m : List (String × RoleplayTemplate))
    (k n : String) (v : RoleplayTemplate) (h : k ≠ n) :
    lookupT (insertT m k v) n = lookupT m n := by
  induction m with
  | nil => simp [insertT, lookupT, h]
  | cons hd tl ih =>
    by_cases hk : hd.1 = k
    · simp [insertT, lookupT, hk, h]
    · simp [insertT, lookupT, hk, ih]

/-- Lookup after removal at the removed key. -/
theorem lookupT_removeT_self (m : List (String × RoleplayTemplate))
    (n : String) : lookupT (removeT m n) n = none := by
  induction m with
  | nil => simp [removeT, lookupT]
  | cons hd tl ih =>
    by_cases hk : hd.1 = n
    · simpa [removeT, lookupT, hk] using ih
    · simpa [removeT, lookupT, hk] using ih

/-- In a collection whose keys are all trimmed, looking up a name that is
not equal to its own trim always fails. -/
theorem lookupT_untrimmed_none (m : List (String × RoleplayTemplate))
    (n : String) (h : keysTrimmedB m = true) (hn : n ≠ jsTrim n) :
    lookupT m n = none := by
  induction m with
  | nil => rfl
  | cons hd tl ih =>
    simp only [keysTrimmedB, List.all_cons, Bool.and_eq_true, beq_iff_eq] at h
    by_cases hk : hd.1 = n
    · exfalso
      apply hn
      have htr := h.1
      rw [hk] at htr
      exact htr.symm
    · simpa [lookupT, hk] using ih (by simpa [keysTrimmedB] using h.2)

/-- Sample template used by concrete witnesses. -/
def sampleTemplate : RoleplayTemplate :=
  { characterName := "勇者"
  , characterRole := "冒險家"
  , sceneDescription := "山谷"
  , scenarioDescription := "旅程"
  , systemPrompt := "提示"
  , avatarBase64 := none }

/-- Service state right after first-access seeding, with an avatar set on
the current settings. -/
def seededState : ServiceState :=
  { settings := { defaultSettings with isRoleplayMode := true, avatarBase64 := some "img" }
  , templates := DEFAULT_TEMPLATES
  , templateStorage := TemplateStorage.stored DEFAULT_TEMPLATES }

/-- Claim C5: when the template exists, `applyTemplate` overwrites every
settings field except `isRoleplayMode` with the template values, including
the avatar (which is cleared when the template has none), keeps the mode
flag, stores the merged value as the current settings, and returns it; when
the template does not exist it returns nothing and the whole state is
unchanged. -/
theorem apply_template_overwrites_or_leaves_untouched
    (st : ServiceState) (name : String) :
    (∀ t, getTemplate st name = some t →
        applyTemplate st name =
          (some { characterName := t.characterName
                , characterRole := t.characterRole
                , sceneDescription := t.sceneDescription
                , scenarioDescription := t.scenarioDescription
                , systemPrompt := t.systemPrompt
                , isRoleplayMode := st.settings.isRoleplayMode
                , avatarBase64 := t.avatarBase64 },
           { st with settings :=
               { characterName := t.characterName
               , characterRole := t.characterRole
               , sceneDescription := t.sceneDescription
               , scenarioDescription := t.scenarioDescription
               , systemPrompt := t.systemPrompt
               , isRoleplayMode := st.settings.isRoleplayMode
               , avatarBase64 := t.avatarBase64 } }))
      ∧ (getTemplate st name = none → applyTemplate st name = (none, st)) := by
  constructor
  · intro t ht
    simp [applyTemplate, getTemplate] at ht ⊢
    rw [ht]
  · intro ht
    simp [applyTemplate, getTemplate] at ht ⊢
    rw [ht]

/-- Witness for claim C5: applying the built-in fantasy template to the
seeded state overwrites the fields, clears the avatar, keeps the mode flag
on, and applying a nonexistent name returns nothing leaving the state
byte-identical. -/
theorem apply_template_witness :
    (applyTemplate seededState "奇幻冒險").2.settings.characterName = "艾爾文"
      ∧ (applyTemplate seededState "奇幻冒險").2.settings.avatarBase64 = none
      ∧ (applyTemplate seededState "奇幻冒險").2.settings.isRoleplayMode = true
      ∧ applyTemplate seededState "nonexistent" = (none, seededState) := by
  have h1 := (apply_template_overwrites_or_leaves_untouched seededState "奇幻冒險").1
    (DEFAULT_TEMPLATES.get ⟨0, by decide⟩).2 (by decide)
  have h2 := (apply_template_overwrites_or_leaves_untouched seededState "nonexistent").2
    (by decide)
  refine ⟨?_, ?_, ?_, h2⟩ <;> rw [h1] <;> decide

/-- Claim C6: with roleplay mode on, the inline welcome generator of the
`RoleplayService` returns nothing when both the character name and the
character role are empty; otherwise it returns an `ai`-role message using
the name verbatim when present and the fallback label `AI` otherwise, with
the role appended in full-width parentheses exactly when the role is
present. -/
theorem welcome_message_cases (s : RoleplaySettings) (h : s.isRoleplayMode = true) :
    (s.characterName = "" → s.characterRole = "" →
        serviceGenerateWelcomeMessage s = none)
      ∧ (s.characterName ≠ "" → s.characterRole ≠ "" →
          serviceGenerateWelcomeMessage s =
            some ⟨MsgRole.ai,
              "*" ++ s.characterName ++ "（" ++ s.characterRole ++ "）已進入對話。*"⟩)
      ∧ (s.characterName ≠ "" → s.characterRole = "" →
          serviceGenerateWelcomeMessage s =
            some ⟨MsgRole.ai, "*" ++ s.characterName ++ "已進入對話。*"⟩)
      ∧ (s.characterName = "" → s.characterRole ≠ "" →
          serviceGenerateWelcomeMessage s =
            some ⟨MsgRole.ai, "*AI（" ++ s.characterRole ++ "）已進入對話。*"⟩) := by
  by_cases h1 : s.characterName = "" <;>
    by_cases h2 : s.characterRole = "" <;>
      refine ⟨fun ha hb => ?_, fun ha hb => ?_, fun ha hb => ?_, fun ha hb => ?_⟩ <;>
        first
          | exact absurd h1 ha
          | exact absurd h2 hb
          | exact absurd ha h1
          | exact absurd hb h2
          | (simp only [serviceGenerateWelcomeMessage, h, h1, h2]
             first
               | rfl
               | (simp [h1, h2, String.append_assoc] <;> rfl))

/-- Witness for claim C6 at concrete inputs: both fields empty gives
nothing, a name without a role gives the plain announcement. -/
theorem welcome_message_cases_witness :
    serviceGenerateWelcomeMessage ⟨"", "", "", "", "", true, none⟩ = none
      ∧ serviceGenerateWelcomeMessage ⟨"夏洛克", "", "", "", "", true, none⟩
        = some ⟨MsgRole.ai, "*夏洛克已進入對話。*"⟩ := by
  constructor
  · exact (welcome_message_cases ⟨"", "", "", "", "", true, none⟩ rfl).1 rfl rfl
  · have h := (welcome_message_cases ⟨"夏洛克", "", "", "", "", true, none⟩ rfl).2.2.1
      (by decide) rfl
    rw [h]
    decide

/-- Claim C7: `saveTemplate` fails exactly when the name trims to the empty
string, leaving the state unchanged, and otherwise inserts-or-overwrites
under the trimmed name, persists the whole collection, and succeeds;
`deleteTemplate` fails exactly when the name is not a stored key, leaving
the state unchanged, and otherwise removes the entry and persists the
collection. -/
theorem save_delete_template_contract
    (st : ServiceState) (name : String) (t : RoleplayTemplate) :
    ((saveTemplate st name t).1 = false ↔ jsTrim name = "")
      ∧ (jsTrim name = "" → saveTemplate st name t = (false, st))
      ∧ (jsTrim name ≠ "" →
          (saveTemplate st name t).2.templates
              = insertT st.templates (jsTrim name) t
            ∧ (saveTemplate st name t).2.templateStorage
              = TemplateStorage.stored (insertT st.templates (jsTrim name) t)
            ∧ getTemplate (saveTemplate st name t).2 (jsTrim name) = some t
            ∧ (saveTemplate st name t).2.settings = st.settings)
      ∧ ((deleteTemplate st name).1 = true ↔ (lookupT st.templates name).isSome = true)
      ∧ (lookupT st.templates name = none → deleteTemplate st name = (false, st))
      ∧ ((lookupT st.templates name).isSome = true →
          (deleteTemplate st name).2.templates = removeT st.templates name
            ∧ (deleteTemplate st name).2.templateStorage
              = TemplateStorage.stored (removeT st.templates name)
            ∧ getTemplate (deleteTemplate st name).2 name = none) := by
  refine ⟨?_, ?_, ?_, ?_, ?_, ?_⟩
  · by_cases h : jsTrim name = "" <;> simp [saveTemplate, h]
  · intro h
    simp [saveTemplate, h]
  · intro h
    refine ⟨?_, ?_, ?_, ?_⟩ <;>
      simp [saveTemplate, getTemplate, h, lookupT_insertT_self]
  · cases hl : lookupT st.templates name <;> simp [deleteTemplate, hl]
  · intro h
    simp [deleteTemplate, h]
  · intro h
    cases hl : lookupT st.templates name with
    | none => rw [hl] at h; cases h
    | some v =>
      refine ⟨?_, ?_, ?_⟩ <;>
        simp [deleteTemplate, getTemplate, hl, lookupT_removeT_self]

/-- Witness for claim C7: on the seeded state, saving under a blank name
fails and changes nothing, saving under a fresh name succeeds with the
entry retrievable, deleting an existing built-in succeeds and removes it,
and deleting an unknown name fails and changes nothing. -/
theorem save_delete_template_contract_witness :
    saveTemplate seededState "  " sampleTemplate = (false, seededState)
      ∧ (saveTemplate seededState "新角色" sampleTemplate).1 = true
      ∧ getTemplate (saveTemplate seededState "新角色" sampleTemplate).2 "新角色"
        = some sampleTemplate
      ∧ (deleteTemplate seededState "偵探推理").1 = true
      ∧ getTemplate (deleteTemplate seededState "偵探推理").2 "偵探推理" = none
      ∧ deleteTemplate seededState "unknown" = (false, seededState) := by
  have hs1 := (save_delete_template_contract seededState "  " sampleTemplate).2.1 (by decide)
  have hs2 := (save_delete_template_contract seededState "新角色" sampleTemplate).2.2.1
    (by decide)
  have hd1 := (save_delete_template_contract seededState "偵探推理" sampleTemplate).2.2.2.1
  have hd2 := (save_delete_template_contract seededState "偵探推理" sampleTemplate).2.2.2.2.2
    (by decide)
  have hd3 := (save_delete_template_contract seededState "unknown" sampleTemplate).2.2.2.2.1
    (by decide)
  refine ⟨hs1, ?_, ?_, ?_, hd2.2.2, hd3⟩
  · have : jsTrim "新角色" ≠ "" := by decide
    have hb := (save_delete_template_contract seededState "新角色" sampleTemplate).1
    by_cases hv : (saveTemplate seededState "新角色" sampleTemplate).1 = false
    · exact absurd (hb.mp hv) this
    · simpa using hv
  · have : jsTrim "新角色" = "新角色" := by decide
    rw [this] at hs2
    exact hs2.2.2.1
  · exact hd1.mpr (by decide)

/-- Claim C8: on first access with no stored collection, the template store
seeds itself with exactly the four built-in templates, each with the avatar
absent, persists the seed immediately, a subsequent load from the persisted
seed returns it unchanged without re-seeding, and the sorted name list has
exactly the four built-in names in lexicographically ascending order. -/
theorem first_access_seeding :
    loadTemplates TemplateStorage.absent
        = (DEFAULT_TEMPLATES, TemplateStorage.stored DEFAULT_TEMPLATES)
      ∧ loadTemplates (TemplateStorage.stored DEFAULT_TEMPLATES)
        = (DEFAULT_TEMPLATES, TemplateStorage.stored DEFAULT_TEMPLATES)
      ∧ DEFAULT_TEMPLATES.all (fun p => p.2.avatarBase64 == none) = true
      ∧ DEFAULT_TEMPLATES.length = 4
      ∧ getTemplateNames ⟨defaultSettings, DEFAULT_TEMPLATES,
          TemplateStorage.stored DEFAULT_TEMPLATES⟩
        = ["偵探推理", "奇幻冒險", "歷史探索", "科幻宇宙"] := by
  refine ⟨rfl, rfl, rfl, rfl, ?_⟩
  decide

/-- Claim C10: over any collection whose stored keys are trimmed (the
invariant maintained by `saveTemplate` and the built-in seeds), saving
under a name with surrounding whitespace and a non-empty trim succeeds and
stores the template under the trimmed name; afterwards looking up the
trimmed name finds it, looking up the untrimmed name finds nothing,
deleting the untrimmed name fails leaving the state unchanged, and deleting
the trimmed name succeeds. -/
theorem save_trims_but_lookups_do_not
    (st : ServiceState) (name : String) (t : RoleplayTemplate)
    (h1 : keysTrimmedB st.templates = true)
    (h2 : jsTrim name ≠ "")
    (h3 : name ≠ jsTrim name) :
    (saveTemplate st name t).1 = true
      ∧ getTemplate (saveTemplate st name t).2 (jsTrim name) = some t
      ∧ getTemplate (saveTemplate st name t).2 name = none
      ∧ deleteTemplate (saveTemplate st name t).2 name
        = (false, (saveTemplate st name t).2)
      ∧ (deleteTemplate (saveTemplate st name t).2 (jsTrim name)).1 = true := by
  have hmain : getTemplate (saveTemplate st name t).2 name = none := by
    have hne : jsTrim name ≠ name := fun he => h3 he.symm
    simp only [saveTemplate, if_neg h2, getTemplate]
    rw [lookupT_insertT_ne _ _ _ _ hne]
    exact lookupT_untrimmed_none _ _ h1 h3
  refine ⟨?_, ?_, hmain, ?_, ?_⟩
  · simp [saveTemplate, h2]
  · simp only [saveTemplate, if_neg h2, getTemplate]
    exact lookupT_insertT_self _ _ _
  · have hl : lookupT (saveTemplate st name t).2.templates name = none := by
      simpa [getTemplate] using hmain
    simp [deleteTemplate, hl]
  · have hl : lookupT (saveTemplate st name t).2.templates (jsTrim name) = some t := by
      simp only [saveTemplate, if_neg h2]
      exact lookupT_insertT_self _ _ _
    simp [deleteTemplate, hl]

/-- Witness for claim C10 at the seeded collection with the padded name
`" 新模板 "`, whose trim is `"新模板"`. -/
theorem save_trims_but_lookups_do_not_witness :
    (saveTemplate seededState " 新模板 " sampleTemplate).1 = true
      ∧ getTemplate (saveTemplate seededState " 新模板 " sampleTemplate).2 "新模板"
        = some sampleTemplate
      ∧ getTemplate (saveTemplate seededState " 新模板 " sampleTemplate).2 " 新模板 "
        = none
      ∧ (deleteTemplate (saveTemplate seededState " 新模板 " sampleTemplate).2
          " 新模板 ").1 = false
      ∧ (deleteTemplate (saveTemplate seededState " 新模板 " sampleTemplate).2
          "新模板").1 = true := by
  have h := save_trims_but_lookups_do_not seededState " 新模板 " sampleTemplate
    (by decide) (by decide) (by decide)
  have htr : jsTrim " 新模板 " = "新模板" := by decide
  rw [htr] at h
  exact ⟨h.1, h.2.1, h.2.2.1, by rw [h.2.2.2.1], h.2.2.2.2⟩

/-- In-memory settings before the settings-change event of the C1
scenario: roleplay active with character name `A`. -/
def cexOldSettings : RoleplaySettings :=
  { characterName := "A"
  , characterRole := ""
  , sceneDescription := ""
  , scenarioDescription := ""
  , systemPrompt := ""
  , isRoleplayMode := true
  , avatarBase64 := none }

/-- New settings of the C1 scenario: only the character name changed. -/
def cexNewSettings : RoleplaySettings :=
  { cexOldSettings with characterName := "B" }

/-- The transcript right after starting roleplay with the old settings:
exactly one system message and one welcome message, no user turn. -/
def cexMessages : List ChatMessage := (startRoleplay cexOldSettings).2

/-- Counterexample to claim C1 as stated: the transcript holds only the
system and welcome messages and no user message, so it is Active-Empty,
yet the handler requests confirmation for an identity-field change; the
claim says the reset should proceed without any confirmation. -/
theorem active_empty_confirmation_counterexample :
    cexOldSettings.isRoleplayMode = true
      ∧ cexNewSettings.isRoleplayMode = true
      ∧ roleDetailsChanged cexOldSettings cexNewSettings = true
      ∧ cexMessages.map (fun m => m.role) = [MsgRole.system, MsgRole.ai]
      ∧ hasUserMessage cexMessages = false
      ∧ (onSettingsChange cexOldSettings cexNewSettings cexMessages false).confirmationRequested
        = true := by
  decide

/-- Claim C1 amended: while roleplay stays active and at least one identity
field changed, the handler requests confirmation exactly when the
transcript holds more than one message (which includes the Active-Empty
system-plus-welcome transcript), declining leaves both the settings and the
transcript exactly unchanged and accepting resets; with at most one message
the reset proceeds without confirmation. -/
theorem settings_change_confirmation_amended
    (a b : RoleplaySettings) (msgs : List ChatMessage) (answer : Bool)
    (h1 : a.isRoleplayMode = true) (h2 : b.isRoleplayMode = true)
    (h3 : roleDetailsChanged a b = true) :
    (msgs.length > 1 →
        (onSettingsChange a b msgs answer).confirmationRequested = true
          ∧ (answer = false →
              onSettingsChange a b msgs answer =
                { settings := a, messages := msgs, confirmationRequested := true })
          ∧ (answer = true →
              onSettingsChange a b msgs answer =
                { settings := (startRoleplay b).1
                , messages := (startRoleplay b).2
                , confirmationRequested := true }))
      ∧ (msgs.length ≤ 1 →
          onSettingsChange a b msgs answer =
            { settings := (startRoleplay b).1
            , messages := (startRoleplay b).2
            , confirmationRequested := false })
      ∧ (startRoleplay b).1 = b := by
  have hb : (startRoleplay b).1 = b := by
    cases b with
    | mk n r sc sn sp m av =>
      cases m with
      | false => cases h2
      | true => rfl
  refine ⟨?_, ?_, hb⟩
  · intro hm
    have hcond : ¬ (a.isRoleplayMode = false ∧ b.isRoleplayMode = true) := by
      simp [h1]
    refine ⟨?_, ?_, ?_⟩
    · cases answer <;> simp [onSettingsChange, hcond, h1, h2, h3, hm]
    · intro ha
      subst ha
      simp [onSettingsChange, hcond, h1, h2, h3, hm]
    · intro ha
      subst ha
      simp [onSettingsChange, hcond, h1, h2, h3, hm]
  · intro hm
    have hcond : ¬ (a.isRoleplayMode = false ∧ b.isRoleplayMode = true) := by
      simp [h1]
    have hm2 : ¬ msgs.length > 1 := by omega
    simp [onSettingsChange, hcond, h1, h2, h3, hm2]

/-- Witness for the amended claim C1: on the concrete Active-Empty
system-plus-welcome transcript a declined confirmation leaves the settings
and transcript exactly unchanged, and on the empty transcript the reset
proceeds without confirmation. -/
theorem settings_change_confirmation_amended_witness :
    onSettingsChange cexOldSettings cexNewSettings cexMessages false =
        { settings := cexOldSettings, messages := cexMessages
        , confirmationRequested := true }
      ∧ (onSettingsChange cexOldSettings cexNewSettings [] false).confirmationRequested
        = false := by
  constructor
  · exact ((settings_change_confirmation_amended cexOldSettings cexNewSettings
      cexMessages false rfl rfl (by decide)).1 (by decide)).2.1 rfl
  · have h := (settings_change_confirmation_amended cexOldSettings cexNewSettings
      [] false rfl rfl (by decide)).2.1 (by decide)
    rw [h]
